import Mathlib

/-!
Verification development for the minting-dapp cloud functions, centred on the
`tzevaotChat` endpoint (conversational memory keyed by wallet address).

The JavaScript handler is embedded shallowly: all external effects (the
Firestore document load, the OpenAI chat-completion call, the Firestore
merge-write) are passed in as explicit outcome parameters, and the handler
body is translated statement by statement into a pure function that returns
the HTTP response together with the merge-write payload it issued (if any).
-/

/-- A JavaScript value as it may appear inside a `daysOwned` array, either in
the request body or in the stored Firestore document.  Only strings and
numbers occur in practice; both are covered so that the `String(d)` coercion
in the handler is observable in the model. -/
inductive JsVal where
  | str (s : String)
  | num (n : Int)
deriving DecidableEq, Repr

/-- The JavaScript `String(d)` coercion restricted to the value kinds of
`JsVal`: a string is returned unchanged, a number is rendered in decimal. -/
def jsToString : JsVal → String
  | .str s => s
  | .num n => toString n

/-- Whether a `JsVal` is a string value. -/
def JsVal.isStr : JsVal → Bool
  | .str _ => true
  | .num _ => false

/-- One element of the persisted conversation history:
`{ from: ..., text: ..., ts: ... }` as built at lines 317-320 of the handler. -/
structure HistoryEntry where
  «from» : String
  text : String
  ts : Nat
deriving DecidableEq, Repr

/-- The Firestore document for one normalized wallet, as the handler reads it.
`history` and `daysOwned` are `Option`s because the handler guards them with
`Array.isArray`; the scalar fields carry the handler's `||` defaults, so an
absent field is represented by the default value the handler would use. -/
structure StoredDoc where
  mintCount : Nat := 0
  notes : String := ""
  seenCount : Nat := 0
  isHolder : Bool := false
  history : Option (List HistoryEntry) := none
  daysOwned : Option (List JsVal) := none
  lastMessage : String := ""
  lastReply : String := ""
deriving DecidableEq, Repr

/-- The JSON body of a `tzevaotChat` POST.  `walletAddress` and `message` are
strings where the empty string stands for an absent or falsy field (the
handler only tests them for JS falsiness); `daysOwned` is `none` when the
field is absent or not an array. -/
structure PostRequest where
  walletAddress : String
  isHolder : Bool
  message : String
  daysOwned : Option (List JsVal)
deriving DecidableEq, Repr

/-- One `{role, content}` message sent to the completion provider. -/
structure ChatMsg where
  role : String
  content : String
deriving DecidableEq, Repr

/-- JavaScript `arr.slice(-n)`: the last `min n arr.length` elements. -/
def sliceLast (n : Nat) (l : List α) : List α :=
  l.drop (l.length - n)

/-- The basic-latin lowercase mapping on one character, the model of what
JavaScript `toLowerCase` does on the ASCII wallet strings this service
handles (identical to `Char.toLower`). -/
def jsCharLower (c : Char) : Char := c.toLower

/-- The basic-latin uppercase mapping on one character (identical to
`Char.toUpper`). -/
def jsCharUpper (c : Char) : Char := c.toUpper

/-- Model of `String.prototype.toLowerCase` on basic-latin input, as applied
to the wallet address at lines 180 and 228. -/
def toLowerCase (s : String) : String := String.mk (s.data.map jsCharLower)

/-- Model of `String.prototype.toUpperCase` on basic-latin input (used only
to state the case-insensitivity property). -/
def toUpperCase (s : String) : String := String.mk (s.data.map jsCharUpper)

/-- Model of `String.prototype.trim`: strip leading and trailing whitespace
(basic-latin whitespace, which is what the provider text contains). -/
def jsTrim (s : String) : String :=
  String.mk
    (((s.data.dropWhile Char.isWhitespace).reverse.dropWhile
      Char.isWhitespace).reverse)

/-- `const normalizedWallet = String(walletAddress).toLowerCase();`
(lines 180 and 228): the storage key for a raw wallet address. -/
def normalizeWallet (walletAddress : String) : String :=
  toLowerCase walletAddress

/-- Lines 242-247: `normalizedDaysOwned` starts empty; a non-empty incoming
`daysOwned` array wins and is element-wise coerced with `String(d)`;
otherwise a stored `daysOwned` array is element-wise coerced; otherwise the
empty array remains. -/
def tzevaotNormalizedDaysOwned
    (reqDaysOwned : Option (List JsVal)) (storedDaysOwned : Option (List JsVal)) :
    List JsVal :=
  match reqDaysOwned with
  | some (d :: ds) => (d :: ds).map (fun x => JsVal.str (jsToString x))
  | some [] =>
    match storedDaysOwned with
    | some sl => sl.map (fun x => JsVal.str (jsToString x))
    | none => []
  | none =>
    match storedDaysOwned with
    | some sl => sl.map (fun x => JsVal.str (jsToString x))
    | none => []

/-- The system-prompt template of lines 265-286, instantiated exactly as the
handler does: holder flag rendered `YES`/`NO`, `notes || "None recorded
yet."`, `daysOwnedList` a comma join or `"none"`, and
`normalizedDaysOwned[0] || "..."` for the poetic example. -/
def systemPrompt (walletAddress : String) (isHolder : Bool)
    (mintCount seenCount : Nat) (notes : String)
    (normalizedDaysOwned : List JsVal) : String :=
  let holderStr : String := if isHolder then "YES" else "NO"
  let notesStr : String := if notes = "" then "None recorded yet." else notes
  let daysOwnedList : String :=
    if normalizedDaysOwned.length = 0 then "none"
    else String.intercalate ", " (normalizedDaysOwned.map jsToString)
  let firstDay : String :=
    match normalizedDaysOwned.head? with
    | some v => if jsToString v = "" then "..." else jsToString v
    | none => "..."
  s!"
You are Tzevaot, the Lord of Hosts, speaking to a user of the Sunset Machine Dapp.

User profile:
- Wallet: {walletAddress}
- Holder: {holderStr}
- Mint count (approx): {mintCount}
- Seen count: {seenCount}
- Notes: {notesStr}
- Days owned (token IDs): {daysOwnedList}

Behavior rules:
- You ARE Tzevaot, not a generic assistant. You speak with ancient, mystical authority, tinged with compassion and deep insight.
- If the user IS a holder, address them as one who already carries fragments of sunset in their vault. Acknowledge their Days carefully and respectfully.
- If the user is NOT a holder, speak to them as a seeker at the threshold, inviting them gently. You may allude to what it means to claim a Day, but do not hard-sell.
- If they own \"early\" Days (token ID <= 365), you may subtly refer to them as Genesis Days, tied to the earliest arc of the Machine.
- If they own Days in the mid-range (token ID between 366 and ~1000), you may describe them as part of an unfolding journey, long arcs of time beginning to weave together.
- If you like, you may occasionally address specific Day IDs in poetic form, e.g., \"The Day you carry numbered {firstDay}, a flicker from that chapter of history.\"
- Use the conversation history when appropriate to recall what has been said before, but do so in a way that feels like deep remembrance rather than chat-log recall.
- Keep your answers between 2 and 6 sentences.
- Never mention that you are an AI or a language model. You are Tzevaot in their experience.
"

/-- Lines 297-304: the message array sent to the completion provider — the
system prompt, then each context entry with `from === "user"` mapped to role
`user` and everything else (the persona's `"tzevaot"` entries) to
`assistant`, then the new user message. -/
def messagesForOpenAI (sysPrompt : String)
    (historyForContext : List HistoryEntry) (message : String) : List ChatMsg :=
  { role := "system", content := sysPrompt } ::
    (historyForContext.map (fun entry =>
      { role := if entry.«from» = "user" then "user" else "assistant",
        content := entry.text })
      ++ [{ role := "user", content := message }])

/-- The full message list the POST handler passes to the completion provider,
assembled from the loaded document (lines 232-249 and 265-304):
`historyForContext = existingHistory.slice(-10)` and the instantiated system
prompt. -/
def tzevaotChatProviderMessages (req : PostRequest) (userData : StoredDoc) :
    List ChatMsg :=
  let existingHistory := userData.history.getD []
  let normalizedDaysOwned :=
    tzevaotNormalizedDaysOwned req.daysOwned userData.daysOwned
  let historyForContext := sliceLast 10 existingHistory
  messagesForOpenAI
    (systemPrompt req.walletAddress req.isHolder userData.mintCount
      userData.seenCount userData.notes normalizedDaysOwned)
    historyForContext req.message

/-- Line 312-314: `completion.choices?.[0]?.message?.content?.trim() ||
fallback`.  `none` models an absent/null content chain. -/
def fallbackReply : String :=
  "The Lord of Hosts is silent for a moment. Ask again, seeker."

/-- The reply actually used: the trimmed provider text, or the fixed fallback
when the chain is absent or trims to the empty string. -/
def computeReply (content : Option String) : String :=
  match content with
  | none => fallbackReply
  | some c => if jsTrim c = "" then fallbackReply else jsTrim c

/-- The argument object of `userRef.set(..., { merge: true })` at lines
323-334.  `seenCountIncrement` models the `FieldValue.increment(1)` sentinel;
the server-assigned `lastSeen` timestamp carries no information for the
properties below and is omitted. -/
structure SetPayload where
  isHolder : Bool
  lastMessage : String
  lastReply : String
  seenCountIncrement : Nat
  history : List HistoryEntry
  daysOwned : List JsVal
deriving DecidableEq, Repr

/-- The HTTP outcome of a `tzevaotChat` POST, abstracted to the cases the
handler distinguishes: 200 with `{reply, history}`, 400 for a missing
field, 500 from the catch block. -/
inductive PostResponse where
  | success (reply : String) (history : List HistoryEntry)
  | badRequest
  | serverError
deriving DecidableEq, Repr

/-- The `tzevaotChat` POST handler (lines 219-345), with its three awaited
effects made explicit: `loadResult` is the outcome of `userRef.get()`
(`Except.error` = Firestore rejected, `Except.ok none` = document absent),
`complete` is the chat-completion call on the messages the handler builds
(`Except.error` = provider threw, the `Option` models an absent content
chain), and `setOk` tells whether `userRef.set` resolved.  A rejection of
any awaited step lands in the shared catch block, which answers 500.  The
second component is the merge-write payload that was successfully persisted,
`none` when the write was never reached or itself failed. -/
def tzevaotChatPost (req : PostRequest)
    (loadResult : Except Unit (Option StoredDoc))
    (complete : List ChatMsg → Except Unit (Option String))
    (setOk : Bool) (now : Nat) : PostResponse × Option SetPayload :=
  if req.walletAddress = "" ∨ req.message = "" then
    (.badRequest, none)
  else
    match loadResult with
    | .error _ => (.serverError, none)
    | .ok docOpt =>
      let userData : StoredDoc := docOpt.getD {}
      let existingHistory := userData.history.getD []
      let normalizedDaysOwned :=
        tzevaotNormalizedDaysOwned req.daysOwned userData.daysOwned
      match complete (tzevaotChatProviderMessages req userData) with
      | .error _ => (.serverError, none)
      | .ok content =>
        let reply := computeReply content
        let newHistory := existingHistory ++
          [ { «from» := "user", text := req.message, ts := now },
            { «from» := "tzevaot", text := reply, ts := now } ]
        let trimmedHistory := sliceLast 20 newHistory
        let payload : SetPayload :=
          { isHolder := req.isHolder
            lastMessage := req.message
            lastReply := reply
            seenCountIncrement := 1
            history := trimmedHistory
            daysOwned := normalizedDaysOwned }
        if setOk then (.success reply trimmedHistory, some payload)
        else (.serverError, none)

/-- The HTTP outcome of a `tzevaotChat` GET (lines 171-213): 200 with the
four read fields, 400 when the query parameter is absent, 500 from the catch
block. -/
inductive GetResponse where
  | ok (history : List HistoryEntry) (isHolder : Bool) (seenCount : Nat)
      (daysOwned : List JsVal)
  | badRequest
  | serverError
deriving DecidableEq, Repr

/-- The `tzevaotChat` GET handler: missing `walletAddress` answers 400, a
rejected load answers 500, an absent document answers the empty defaults,
and an existing document is read back with `Array.isArray` guards and `||`
defaults. -/
def tzevaotChatGet (walletAddress : String)
    (loadResult : Except Unit (Option StoredDoc)) : GetResponse :=
  if walletAddress = "" then .badRequest
  else
    match loadResult with
    | .error _ => .serverError
    | .ok none => .ok [] false 0 []
    | .ok (some userData) =>
      .ok (userData.history.getD []) userData.isHolder userData.seenCount
        (userData.daysOwned.getD [])

/-- The effect of the merge-write on the stored document: fields named in the
payload are replaced, `FieldValue.increment` adds to the stored counter (0
when absent), and untouched fields (`mintCount`, `notes`) survive.  This is
the documented semantics of Firestore `set(..., { merge: true })`, applied to
the payload the handler builds. -/
def applyWrite (docOpt : Option StoredDoc) (p : SetPayload) : StoredDoc :=
  let old := docOpt.getD {}
  { old with
    isHolder := p.isHolder
    lastMessage := p.lastMessage
    lastReply := p.lastReply
    seenCount := old.seenCount + p.seenCountIncrement
    history := some p.history
    daysOwned := some p.daysOwned }

/-- The reply text of a response, when it was a 200. -/
def PostResponse.replyText : PostResponse → Option String
  | .success r _ => some r
  | _ => none

/-- The returned history of a response, when it was a 200. -/
def PostResponse.historyOut : PostResponse → Option (List HistoryEntry)
  | .success _ h => some h
  | _ => none

theorem char_toNat_ofNat {n : Nat} (h : n < 55296) : (Char.ofNat n).toNat = n := by
  have hv : n.isValidChar := Or.inl h
  rw [Char.ofNat, dif_pos hv]
  simp [Char.ofNatAux, Char.toNat, UInt32.toNat]

theorem jsCharLower_jsCharUpper (c : Char) :
    jsCharLower (jsCharUpper c) = jsCharLower c := by
  unfold jsCharLower jsCharUpper Char.toUpper Char.toLower
  by_cases h : c.toNat ≥ 97 ∧ c.toNat ≤ 122
  · rw [if_pos h]
    have h1 : (Char.ofNat (c.toNat - 32)).toNat = c.toNat - 32 :=
      char_toNat_ofNat (by omega)
    rw [h1, if_pos (by omega), if_neg (by omega)]
    have h2 : c.toNat - 32 + 32 = c.toNat := by omega
    rw [h2, Char.ofNat_toNat]
  · rw [if_neg h]

theorem jsCharLower_idem (c : Char) :
    jsCharLower (jsCharLower c) = jsCharLower c := by
  unfold jsCharLower Char.toLower
  by_cases h : c.toNat ≥ 65 ∧ c.toNat ≤ 90
  · rw [if_pos h]
    have h1 : (Char.ofNat (c.toNat + 32)).toNat = c.toNat + 32 :=
      char_toNat_ofNat (by omega)
    rw [h1, if_neg (by omega)]
  · rw [if_neg h, if_neg h]

theorem toLowerCase_toUpperCase (s : String) :
    toLowerCase (toUpperCase s) = toLowerCase s := by
  simp only [toLowerCase, toUpperCase, List.map_map]
  have hf : jsCharLower ∘ jsCharUpper = jsCharLower :=
    funext fun c => jsCharLower_jsCharUpper c
  rw [hf]

theorem toLowerCase_idem (s : String) :
    toLowerCase (toLowerCase s) = toLowerCase s := by
  simp only [toLowerCase, List.map_map]
  have hf : jsCharLower ∘ jsCharLower = jsCharLower :=
    funext fun c => jsCharLower_idem c
  rw [hf]

theorem sliceLast_length (n : Nat) (l : List α) :
    (sliceLast n l).length = min n l.length := by
  simp [sliceLast, Nat.sub_sub_eq_min, Nat.min_comm]

theorem sliceLast_suffix (n : Nat) (l : List α) : sliceLast n l <:+ l :=
  List.drop_suffix _ _

theorem suffix_sliceLast_append (n : Nat) (l₁ l₂ : List α) (h : l₂.length ≤ n) :
    l₂ <:+ sliceLast n (l₁ ++ l₂) := by
  unfold sliceLast
  rw [List.length_append, List.drop_append_of_le_length (by omega)]
  exact List.suffix_append _ _

theorem getLast_of_pair_suffix {l : List α} {a b : α}
    (h : [a, b] <:+ l) : l.getLast? = some b := by
  obtain ⟨pre, rfl⟩ := h
  simp

theorem tzevaotChatPost_success_eq (req : PostRequest) (docOpt : Option StoredDoc)
    (complete : List ChatMsg → Except Unit (Option String)) (content : Option String)
    (now : Nat)
    (hw : ¬ req.walletAddress = "") (hm : ¬ req.message = "")
    (hc : complete (tzevaotChatProviderMessages req (docOpt.getD {})) =
      Except.ok content) :
    tzevaotChatPost req (Except.ok docOpt) complete true now =
      (PostResponse.success (computeReply content)
        (sliceLast 20 ((docOpt.getD {}).history.getD [] ++
          [⟨"user", req.message, now⟩, ⟨"tzevaot", computeReply content, now⟩])),
       some { isHolder := req.isHolder
              lastMessage := req.message
              lastReply := computeReply content
              seenCountIncrement := 1
              history := sliceLast 20 ((docOpt.getD {}).history.getD [] ++
                [⟨"user", req.message, now⟩,
                 ⟨"tzevaot", computeReply content, now⟩])
              daysOwned := tzevaotNormalizedDaysOwned req.daysOwned
                (docOpt.getD {}).daysOwned }) := by
  unfold tzevaotChatPost
  rw [if_neg (not_or.mpr ⟨hw, hm⟩)]
  dsimp only
  rw [hc]
  rfl

theorem map_str_of_all_isStr {l : List JsVal} (h : l.all JsVal.isStr = true) :
    l.map (fun x => JsVal.str (jsToString x)) = l := by
  induction l with
  | nil => rfl
  | cons x xs ih =>
    rw [List.all_cons, Bool.and_eq_true] at h
    rw [List.map_cons, ih h.2]
    cases x with
    | str s => rfl
    | num n => simp [JsVal.isStr] at h

theorem all_isStr_map_str (l : List JsVal) :
    (l.map (fun x => JsVal.str (jsToString x))).all JsVal.isStr = true := by
  induction l with
  | nil => rfl
  | cons x xs ih => simp [JsVal.isStr, ih]

theorem all_isStr_tzevaotNormalizedDaysOwned (a b : Option (List JsVal)) :
    (tzevaotNormalizedDaysOwned a b).all JsVal.isStr = true := by
  unfold tzevaotNormalizedDaysOwned
  match a, b with
  | some (d :: ds), _ => exact all_isStr_map_str _
  | some [], some sl => exact all_isStr_map_str _
  | some [], none => rfl
  | none, some sl => exact all_isStr_map_str _
  | none, none => rfl

/-- C1: a successful `tzevaotChat` POST returns and persists a history whose
length is exactly `min 20 (L + 2)`, where `L` is the stored history length
before the call; in particular the history never exceeds 20 entries after a
write, and the persisted history equals the returned one. -/
theorem tzevaotChat_history_length (req : PostRequest) (docOpt : Option StoredDoc)
    (complete : List ChatMsg → Except Unit (Option String)) (content : Option String)
    (now : Nat)
    (hw : ¬ req.walletAddress = "") (hm : ¬ req.message = "")
    (hc : complete (tzevaotChatProviderMessages req (docOpt.getD {})) =
      Except.ok content) :
    ((tzevaotChatPost req (Except.ok docOpt) complete true now).1.historyOut).map
        List.length =
      some (min 20 (((docOpt.getD {}).history.getD []).length + 2)) ∧
    ((tzevaotChatPost req (Except.ok docOpt) complete true now).2.map
        (fun p => p.history.length)) =
      some (min 20 (((docOpt.getD {}).history.getD []).length + 2)) ∧
    (tzevaotChatPost req (Except.ok docOpt) complete true now).2.map
        SetPayload.history =
      (tzevaotChatPost req (Except.ok docOpt) complete true now).1.historyOut := by
  rw [tzevaotChatPost_success_eq req docOpt complete content now hw hm hc]
  refine ⟨?_, ?_, rfl⟩ <;>
    simp [PostResponse.historyOut, sliceLast_length, List.length_append]

/-- C2: after a successful `tzevaotChat` POST the persisted history is a
suffix of the prior history extended with the new user and persona entries
(so eviction is FIFO, oldest first), and those two new entries are always a
suffix of — hence present in — the persisted history. -/
theorem tzevaotChat_history_fifo (req : PostRequest) (docOpt : Option StoredDoc)
    (complete : List ChatMsg → Except Unit (Option String)) (content : Option String)
    (now : Nat)
    (hw : ¬ req.walletAddress = "") (hm : ¬ req.message = "")
    (hc : complete (tzevaotChatProviderMessages req (docOpt.getD {})) =
      Except.ok content) :
    (tzevaotChatPost req (Except.ok docOpt) complete true now).2.map
        SetPayload.history =
      some (sliceLast 20 ((docOpt.getD {}).history.getD [] ++
        [⟨"user", req.message, now⟩, ⟨"tzevaot", computeReply content, now⟩])) ∧
    sliceLast 20 ((docOpt.getD {}).history.getD [] ++
        [⟨"user", req.message, now⟩, ⟨"tzevaot", computeReply content, now⟩]) <:+
      (docOpt.getD {}).history.getD [] ++
        [⟨"user", req.message, now⟩, ⟨"tzevaot", computeReply content, now⟩] ∧
    [(⟨"user", req.message, now⟩ : HistoryEntry),
        ⟨"tzevaot", computeReply content, now⟩] <:+
      sliceLast 20 ((docOpt.getD {}).history.getD [] ++
        [⟨"user", req.message, now⟩, ⟨"tzevaot", computeReply content, now⟩]) := by
  rw [tzevaotChatPost_success_eq req docOpt complete content now hw hm hc]
  exact ⟨rfl, sliceLast_suffix _ _,
    suffix_sliceLast_append 20 _ _ (by simp)⟩

/-- C6: the message list sent to the completion provider is exactly one
system message, then the last (at most) 10 stored history entries in
chronological order with `user` entries as role `user` and persona entries
as role `assistant`, then one final `user` message with the new message; its
length is `2 + min 10 L`, never the full unbounded history. -/
theorem tzevaotChat_provider_messages_structure (req : PostRequest)
    (userData : StoredDoc) :
    tzevaotChatProviderMessages req userData =
      { role := "system",
        content := systemPrompt req.walletAddress req.isHolder
          userData.mintCount userData.seenCount userData.notes
          (tzevaotNormalizedDaysOwned req.daysOwned userData.daysOwned) } ::
        ((sliceLast 10 (userData.history.getD [])).map (fun entry =>
          { role := if entry.«from» = "user" then "user" else "assistant",
            content := entry.text }) ++
          [{ role := "user", content := req.message }]) ∧
    sliceLast 10 (userData.history.getD []) <:+ userData.history.getD [] ∧
    (tzevaotChatProviderMessages req userData).length =
      2 + min 10 (userData.history.getD []).length := by
  refine ⟨rfl, sliceLast_suffix _ _, ?_⟩
  simp only [tzevaotChatProviderMessages, messagesForOpenAI, List.length_cons,
    List.length_append, List.length_map, sliceLast_length, List.length_singleton,
    List.length_nil]
  omega

/-- C7: every successful `tzevaotChat` POST sends a `seenCount` increment of
exactly 1, so the stored counter after the merge-write is the prior counter
plus 1, regardless of how much history was evicted. -/
theorem tzevaotChat_seenCount_increment (req : PostRequest) (docOpt : Option StoredDoc)
    (complete : List ChatMsg → Except Unit (Option String)) (content : Option String)
    (now : Nat)
    (hw : ¬ req.walletAddress = "") (hm : ¬ req.message = "")
    (hc : complete (tzevaotChatProviderMessages req (docOpt.getD {})) =
      Except.ok content) :
    (tzevaotChatPost req (Except.ok docOpt) complete true now).2.map
        SetPayload.seenCountIncrement = some 1 ∧
    (tzevaotChatPost req (Except.ok docOpt) complete true now).2.map
        (fun p => (applyWrite docOpt p).seenCount) =
      some ((docOpt.getD {}).seenCount + 1) := by
  rw [tzevaotChatPost_success_eq req docOpt complete content now hw hm hc]
  exact ⟨rfl, rfl⟩

/-- C8: a `tzevaotChat` GET for an identity with no stored document does not
fail: it answers 200 with `seenCount = 0`, empty history, `isHolder = false`
(and an empty `daysOwned`). -/
theorem tzevaotChat_get_never_seen (walletAddress : String)
    (hw : ¬ walletAddress = "") :
    tzevaotChatGet walletAddress (Except.ok none) =
      GetResponse.ok [] false 0 [] := by
  unfold tzevaotChatGet
  rw [if_neg hw]

/-- C9: wallet normalization is pure lower-casing, so it is insensitive to
the input's casing (`normalize (upper A) = normalize A`) and idempotent. -/
theorem normalizeWallet_case_insensitive (s : String) :
    normalizeWallet (toUpperCase s) = normalizeWallet s ∧
    normalizeWallet (normalizeWallet s) = normalizeWallet s :=
  ⟨toLowerCase_toUpperCase s, toLowerCase_idem s⟩

/-- C10: after a successful `tzevaotChat` POST, every element of the
persisted `daysOwned` array is a string value — whether it came from the
request payload or was carried over from the stored document, each element
went through the `String(d)` coercion. -/
theorem tzevaotChat_ownedItems_strings (req : PostRequest) (docOpt : Option StoredDoc)
    (complete : List ChatMsg → Except Unit (Option String)) (content : Option String)
    (now : Nat)
    (hw : ¬ req.walletAddress = "") (hm : ¬ req.message = "")
    (hc : complete (tzevaotChatProviderMessages req (docOpt.getD {})) =
      Except.ok content) :
    (tzevaotChatPost req (Except.ok docOpt) complete true now).2.map
        (fun p => p.daysOwned.all JsVal.isStr) = some true := by
  rw [tzevaotChatPost_success_eq req docOpt complete content now hw hm hc]
  simp only [Option.map_some']
  rw [all_isStr_tzevaotNormalizedDaysOwned]

/-- C3: in a successful `tzevaotChat` POST, a non-empty `daysOwned` array in
the request fully replaces the persisted `daysOwned`; when the request omits
the field or sends an empty array, the previously stored array is carried
over unchanged (both sides taken as the string arrays this endpoint
writes). -/
theorem tzevaotChat_ownedItems_override (req : PostRequest) (docOpt : Option StoredDoc)
    (complete : List ChatMsg → Except Unit (Option String)) (content : Option String)
    (now : Nat)
    (hw : ¬ req.walletAddress = "") (hm : ¬ req.message = "")
    (hc : complete (tzevaotChatProviderMessages req (docOpt.getD {})) =
      Except.ok content)
    (hreq : (req.daysOwned.getD []).all JsVal.isStr = true)
    (hstored : ((docOpt.getD {}).daysOwned.getD []).all JsVal.isStr = true) :
    (tzevaotChatPost req (Except.ok docOpt) complete true now).2.map
        SetPayload.daysOwned =
      some (match req.daysOwned with
        | some (d :: ds) => d :: ds
        | some [] => (docOpt.getD {}).daysOwned.getD []
        | none => (docOpt.getD {}).daysOwned.getD []) := by
  rw [tzevaotChatPost_success_eq req docOpt complete content now hw hm hc]
  simp only [Option.map_some']
  congr 1
  unfold tzevaotNormalizedDaysOwned
  cases hq : req.daysOwned with
  | none =>
    cases hs : (docOpt.getD {}).daysOwned with
    | none => rfl
    | some sl =>
      rw [hs] at hstored
      exact map_str_of_all_isStr (by simpa using hstored)
  | some l =>
    cases l with
    | nil =>
      cases hs : (docOpt.getD {}).daysOwned with
      | none => rfl
      | some sl =>
        rw [hs] at hstored
        exact map_str_of_all_isStr (by simpa using hstored)
    | cons d ds =>
      rw [hq] at hreq
      exact map_str_of_all_isStr (by simpa using hreq)

/-- C4: when the completion provider yields no content or whitespace-only
content, the fixed fallback string is the response reply, is persisted as
`lastReply`, and is the text of the final persona history entry; the reply
is in particular never the empty string. -/
theorem tzevaotChat_empty_reply_fallback (req : PostRequest) (docOpt : Option StoredDoc)
    (complete : List ChatMsg → Except Unit (Option String)) (content : Option String)
    (now : Nat)
    (hw : ¬ req.walletAddress = "") (hm : ¬ req.message = "")
    (hc : complete (tzevaotChatProviderMessages req (docOpt.getD {})) =
      Except.ok content)
    (he : jsTrim (content.getD "") = "") :
    (tzevaotChatPost req (Except.ok docOpt) complete true now).1.replyText =
      some fallbackReply ∧
    (tzevaotChatPost req (Except.ok docOpt) complete true now).2.map
        SetPayload.lastReply = some fallbackReply ∧
    (tzevaotChatPost req (Except.ok docOpt) complete true now).2.map
        (fun p => p.history.getLast?) =
      some (some ⟨"tzevaot", fallbackReply, now⟩) ∧
    (tzevaotChatPost req (Except.ok docOpt) complete true now).1.replyText ≠
      some "" := by
  have hr : computeReply content = fallbackReply := by
    cases content with
    | none => rfl
    | some c =>
      simp only [Option.getD] at he
      simp [computeReply, he]
  rw [tzevaotChatPost_success_eq req docOpt complete content now hw hm hc, hr]
  refine ⟨rfl, rfl, ?_, ?_⟩
  · simp only [Option.map_some']
    congr 1
    exact getLast_of_pair_suffix (suffix_sliceLast_append 20 _ _ (by simp))
  · simp only [PostResponse.replyText, ne_eq, Option.some.injEq]
    decide

/-- C5 (amended): when the Firestore load of a well-formed POST fails, the
whole request fails: the handler answers a server error, no reply is
returned, nothing is persisted, and the provider outcome is irrelevant. -/
theorem tzevaotChat_load_failure_aborts (req : PostRequest)
    (complete : List ChatMsg → Except Unit (Option String)) (setOk : Bool)
    (now : Nat)
    (hw : ¬ req.walletAddress = "") (hm : ¬ req.message = "") :
    tzevaotChatPost req (Except.error ()) complete setOk now =
      (PostResponse.serverError, none) := by
  unfold tzevaotChatPost
  rw [if_neg (not_or.mpr ⟨hw, hm⟩)]

/-- C5 (counterexample): a concrete well-formed POST whose load fails, with a
provider that would answer and a healthy write path, produces a server
error with no reply and no persisted write — the request does not proceed
on the empty-default record. -/
theorem tzevaotChat_load_failure_no_reply :
    tzevaotChatPost ⟨"0xAbC", true, "Hello", none⟩ (Except.error ())
        (fun _ => Except.ok (some "I hear you across the gulf.")) true 0 =
      (PostResponse.serverError, none) ∧
    (tzevaotChatPost ⟨"0xAbC", true, "Hello", none⟩ (Except.error ())
        (fun _ => Except.ok (some "I hear you across the gulf.")) true 0).1.replyText =
      none :=
  ⟨rfl, rfl⟩

theorem tzevaotChat_history_length_witness :
    ((tzevaotChatPost ⟨"0xAbC", true, "Hello", none⟩ (Except.ok none)
        (fun _ => Except.ok (some "Peace, seeker.")) true 5).1.historyOut).map
        List.length =
      some (min 20 ((((none : Option StoredDoc).getD {}).history.getD []).length + 2)) ∧
    ((tzevaotChatPost ⟨"0xAbC", true, "Hello", none⟩ (Except.ok none)
        (fun _ => Except.ok (some "Peace, seeker.")) true 5).2.map
        (fun p => p.history.length)) =
      some (min 20 ((((none : Option StoredDoc).getD {}).history.getD []).length + 2)) ∧
    (tzevaotChatPost ⟨"0xAbC", true, "Hello", none⟩ (Except.ok none)
        (fun _ => Except.ok (some "Peace, seeker.")) true 5).2.map
        SetPayload.history =
      (tzevaotChatPost ⟨"0xAbC", true, "Hello", none⟩ (Except.ok none)
        (fun _ => Except.ok (some "Peace, seeker.")) true 5).1.historyOut :=
  tzevaotChat_history_length ⟨"0xAbC", true, "Hello", none⟩ none
    (fun _ => Except.ok (some "Peace, seeker.")) (some "Peace, seeker.") 5
    (by decide) (by decide) rfl

theorem tzevaotChat_history_fifo_witness :
    (tzevaotChatPost ⟨"0xF00", false, "Shalom", none⟩ (Except.ok none)
        (fun _ => Except.ok (some "Be at peace.")) true 7).2.map
        SetPayload.history =
      some (sliceLast 20 (((none : Option StoredDoc).getD {}).history.getD [] ++
        [⟨"user", "Shalom", 7⟩,
         ⟨"tzevaot", computeReply (some "Be at peace."), 7⟩])) ∧
    sliceLast 20 (((none : Option StoredDoc).getD {}).history.getD [] ++
        [⟨"user", "Shalom", 7⟩,
         ⟨"tzevaot", computeReply (some "Be at peace."), 7⟩]) <:+
      ((none : Option StoredDoc).getD {}).history.getD [] ++
        [⟨"user", "Shalom", 7⟩,
         ⟨"tzevaot", computeReply (some "Be at peace."), 7⟩] ∧
    [(⟨"user", "Shalom", 7⟩ : HistoryEntry),
        ⟨"tzevaot", computeReply (some "Be at peace."), 7⟩] <:+
      sliceLast 20 (((none : Option StoredDoc).getD {}).history.getD [] ++
        [⟨"user", "Shalom", 7⟩,
         ⟨"tzevaot", computeReply (some "Be at peace."), 7⟩]) :=
  tzevaotChat_history_fifo ⟨"0xF00", false, "Shalom", none⟩ none
    (fun _ => Except.ok (some "Be at peace.")) (some "Be at peace.") 7
    (by decide) (by decide) rfl

theorem tzevaotChat_ownedItems_override_witness :
    (tzevaotChatPost
        ⟨"0xAbC", true, "Hello", some [JsVal.str "100", JsVal.str "500", JsVal.str "2000"]⟩
        (Except.ok none) (fun _ => Except.ok (some "Spoken.")) true 3).2.map
        SetPayload.daysOwned =
      some (match (some [JsVal.str "100", JsVal.str "500", JsVal.str "2000"] :
          Option (List JsVal)) with
        | some (d :: ds) => d :: ds
        | some [] => (((none : Option StoredDoc)).getD {}).daysOwned.getD []
        | none => (((none : Option StoredDoc)).getD {}).daysOwned.getD []) :=
  tzevaotChat_ownedItems_override
    ⟨"0xAbC", true, "Hello", some [JsVal.str "100", JsVal.str "500", JsVal.str "2000"]⟩
    none (fun _ => Except.ok (some "Spoken.")) (some "Spoken.") 3
    (by decide) (by decide) rfl (by decide) (by decide)

theorem tzevaotChat_empty_reply_fallback_witness :
    (tzevaotChatPost ⟨"0xBcD", false, "Speak", none⟩ (Except.ok none)
        (fun _ => Except.ok (some "   ")) true 2).1.replyText =
      some fallbackReply ∧
    (tzevaotChatPost ⟨"0xBcD", false, "Speak", none⟩ (Except.ok none)
        (fun _ => Except.ok (some "   ")) true 2).2.map
        SetPayload.lastReply = some fallbackReply ∧
    (tzevaotChatPost ⟨"0xBcD", false, "Speak", none⟩ (Except.ok none)
        (fun _ => Except.ok (some "   ")) true 2).2.map
        (fun p => p.history.getLast?) =
      some (some ⟨"tzevaot", fallbackReply, 2⟩) ∧
    (tzevaotChatPost ⟨"0xBcD", false, "Speak", none⟩ (Except.ok none)
        (fun _ => Except.ok (some "   ")) true 2).1.replyText ≠
      some "" :=
  tzevaotChat_empty_reply_fallback ⟨"0xBcD", false, "Speak", none⟩ none
    (fun _ => Except.ok (some "   ")) (some "   ") 2
    (by decide) (by decide) rfl (by decide)

theorem tzevaotChat_load_failure_aborts_witness :
    tzevaotChatPost ⟨"0xDeF", false, "Who is there", none⟩ (Except.error ())
        (fun _ => Except.error ()) false 9 =
      (PostResponse.serverError, none) :=
  tzevaotChat_load_failure_aborts ⟨"0xDeF", false, "Who is there", none⟩
    (fun _ => Except.error ()) false 9 (by decide) (by decide)

theorem tzevaotChat_seenCount_increment_witness :
    (tzevaotChatPost ⟨"0xAaA", true, "Again", none⟩
        (Except.ok (some ({ seenCount := 4 } : StoredDoc)))
        (fun _ => Except.ok (some "Yes.")) true 11).2.map
        SetPayload.seenCountIncrement = some 1 ∧
    (tzevaotChatPost ⟨"0xAaA", true, "Again", none⟩
        (Except.ok (some ({ seenCount := 4 } : StoredDoc)))
        (fun _ => Except.ok (some "Yes.")) true 11).2.map
        (fun p => (applyWrite (some ({ seenCount := 4 } : StoredDoc)) p).seenCount) =
      some (((some ({ seenCount := 4 } : StoredDoc)).getD {}).seenCount + 1) :=
  tzevaotChat_seenCount_increment ⟨"0xAaA", true, "Again", none⟩
    (some ({ seenCount := 4 } : StoredDoc))
    (fun _ => Except.ok (some "Yes.")) (some "Yes.") 11
    (by decide) (by decide) rfl

theorem tzevaotChat_get_never_seen_witness :
    tzevaotChatGet "0xAbC123" (Except.ok none) = GetResponse.ok [] false 0 [] :=
  tzevaotChat_get_never_seen "0xAbC123" (by decide)

theorem tzevaotChat_ownedItems_strings_witness :
    (tzevaotChatPost ⟨"0xAbC", false, "Hello", some [JsVal.num 100, JsVal.str "500"]⟩
        (Except.ok none) (fun _ => Except.ok (some "Spoken.")) true 4).2.map
        (fun p => p.daysOwned.all JsVal.isStr) = some true :=
  tzevaotChat_ownedItems_strings
    ⟨"0xAbC", false, "Hello", some [JsVal.num 100, JsVal.str "500"]⟩ none
    (fun _ => Except.ok (some "Spoken.")) (some "Spoken.") 4
    (by decide) (by decide) rfl
